import Mathlib

/-!
Shallow embedding of the pingap-docker-provider reconciliation core.

The definitions below are translated from the repository's Rust sources:
* `src/models.rs`  — the label-to-configuration compiler (`parse_pingap_config`),
* `src/pingap.rs`  — the remote apply/delete protocol (`apply_config`, `delete_config`),
* `src/main.rs`    — the reconciliation event loop's state handling.

Rust `HashMap<String, String>` values are modelled as association lists looked
up by first match; Rust `Result` is `Except String`; machine integers are `Nat`
with explicit range checks mirroring `str::parse::<u16>/<u32>/<i32>`.
-/

deriving instance DecidableEq for Except

/-- First-match lookup in an association list, modelling `HashMap::get`. -/
def lookupL (m : List (String × String)) (k : String) : Option String :=
  match m with
  | [] => none
  | (k0, v0) :: rest => if k0 = k then some v0 else lookupL rest k

/-- `str::trim_start_matches(c)`: drop every leading occurrence of one char. -/
def trimStartChar (ch : Char) (s : String) : String :=
  ⟨s.data.dropWhile (fun c => c = ch)⟩

/-- Digit accumulation for the integer parsers, one checked step per char,
mirroring `from_str_radix`'s loop (`checked_mul` then `checked_add`). -/
def parseDigitsLoop (bound : Nat) : List Char → Nat → Except String Nat
  | [], acc => .ok acc
  | c :: rest, acc =>
    if c.isDigit then
      let v := acc * 10 + (c.toNat - 48)
      if v ≤ bound then parseDigitsLoop bound rest v
      else .error "number too large to fit in target type"
    else .error "invalid digit found in string"

/-- Rust `str::parse` for an unsigned integer type with maximum `bound`
(an optional leading `+`, then decimal digits, checked against `bound`);
the error strings are `ParseIntError`'s display texts. -/
def parseUnsigned (bound : Nat) (s : String) : Except String Nat :=
  match s.data with
  | [] => .error "cannot parse integer from empty string"
  | c :: rest =>
    if c = '+' then
      match rest with
      | [] => .error "invalid digit found in string"
      | _ => parseDigitsLoop bound rest 0
    else parseDigitsLoop bound (c :: rest) 0

/-- `str::parse::<u16>`. -/
def parseU16 (s : String) : Except String Nat := parseUnsigned 65535 s

/-- `str::parse::<u32>().ok()`. -/
def parseU32opt (s : String) : Option Nat := (parseUnsigned 4294967295 s).toOption

/-- `str::parse::<i32>().ok()`: optional sign, digits, 32-bit signed range. -/
def parseI32opt (s : String) : Option Int :=
  match s.data with
  | [] => none
  | c :: rest =>
    let signed : Bool × List Char :=
      if c = '-' then (true, rest)
      else if c = '+' then (false, rest) else (false, c :: rest)
    match signed with
    | (neg, ds) =>
      if ds = [] then none
      else if ds.all (fun d => d.isDigit) then
        let v : Nat := ds.foldl (fun a d => a * 10 + (d.toNat - 48)) 0
        if neg then if v ≤ 2147483648 then some (-(v : Int)) else none
        else if v ≤ 2147483647 then some (v : Int) else none
      else none

/-- `str::split(',')` on char lists: every comma is a separator, empty
pieces are kept, the empty string yields one empty piece. -/
def splitComma : List Char → List (List Char)
  | [] => [[]]
  | c :: rest =>
    match splitComma rest with
    | [] => [[]]
    | g :: gs => if c = ',' then [] :: g :: gs else (c :: g) :: gs

/-- `str::trim`: strip whitespace from both ends (ASCII whitespace here,
standing in for Rust's Unicode white-space class). -/
def trimL (s : List Char) : List Char :=
  ((s.dropWhile Char.isWhitespace).reverse.dropWhile Char.isWhitespace).reverse

/-- `Vec::join(sep)` / `str::join`. -/
def joinSep (sep : String) : List String → String
  | [] => ""
  | [x] => x
  | x :: y :: rest => x ++ sep ++ joinSep sep (y :: rest)

/-- `s.split(',')` then `trim` each piece, as the compiler does for
comma-separated label values. -/
def splitTrim (s : String) : List String :=
  (splitComma s.data).map (fun g => ⟨trimL g⟩)

/-! ## Data model (`src/models.rs`) -/

structure UpstreamConfig where
  weight : Option Nat
  strategy : Option String
deriving Repr, DecidableEq

structure HealthCheckConfig where
  path : String
  interval : Option String
  timeout : Option String
deriving Repr, DecidableEq

structure MiddlewareConfig where
  stripPrefix : Option String
  addPrefix : Option String
  custom_request_headers : Option (List String)
  custom_response_headers : Option (List String)
  cors_enabled : Option Bool
  compress : Option Bool
  ratelimit_average : Option Nat
  ratelimit_burst : Option Nat
  basic_auth : Option String
  redirect_scheme : Option String
  redirect_regex : Option String
deriving Repr, DecidableEq

structure TlsConfig where
  enabled : Bool
  redirect : Option Bool
  domains : Option (List String)
deriving Repr, DecidableEq

structure PingapLocation where
  rule : String
  priority : Option Int
  middlewares : Option (List String)
  tls : Option Bool
deriving Repr, DecidableEq

structure PingapServiceConfig where
  name : String
  upstreams : List String
  location : PingapLocation
  upstream_config : Option UpstreamConfig
  health_check : Option HealthCheckConfig
  middleware_config : Option MiddlewareConfig
  tls_config : Option TlsConfig
deriving Repr, DecidableEq

structure ContainerInfo where
  id : String
  name : String
  labels : List (String × String)
  ip_address : Option String
  ports : List Nat
  networks : List (String × String)
deriving Repr

/-! ## Label-to-configuration compiler (`ContainerInfo::parse_pingap_config`) -/

/-- `format!("{:?}", networks.keys().collect::<Vec<_>>())` (Debug escaping of
exotic characters inside names elided). -/
def debugKeys (nets : List (String × String)) : String :=
  "[" ++ joinSep ", " (nets.map (fun p => "\"" ++ p.1 ++ "\"")) ++ "]"

/-- Service-name derivation: explicit label, else container name with leading
slashes stripped. -/
def serviceNameOf (c : ContainerInfo) : String :=
  (lookupL c.labels "pingap.service.name").getD (trimStartChar '/' c.name)

/-- IP resolution block of `parse_pingap_config` (models.rs lines 152-164). -/
def resolveIp (c : ContainerInfo) : Except String String :=
  match lookupL c.labels "pingap.docker.network" with
  | some network_name =>
    match lookupL c.networks network_name with
    | some ip => .ok ip
    | none => .error ("Container " ++ c.name ++ " is not connected to network '"
        ++ network_name ++ "'. Available networks: " ++ debugKeys c.networks)
  | none =>
    match c.ip_address with
    | some ip => .ok ip
    | none =>
      match c.networks with
      | [] => .error ("No IP address found for container " ++ c.name)
      | (_, ip) :: _ => .ok ip

/-- Port resolution block of `parse_pingap_config` (models.rs lines 166-175). -/
def resolvePort (c : ContainerInfo) : Except String Nat :=
  match lookupL c.labels "pingap.service.port" with
  | some port_str =>
    match parseU16 port_str with
    | .ok p => .ok p
    | .error e => .error ("Invalid port '" ++ port_str ++ "': " ++ e)
  | none =>
    match c.ports with
    | [] => .error ("No exposed ports found for container " ++ c.name
        ++ ". Use pingap.service.port label to specify port explicitly.")
    | p :: _ => .ok p

/-- One `PathPrefix` predicate per comma-separated, trimmed path entry,
joined by `" || "` (models.rs lines 191-197). -/
def pathRulesOf (paths : String) : String :=
  joinSep " || " ((splitTrim paths).map (fun p => "PathPrefix(`" ++ p ++ "`)"))

/-- Routing-rule resolution block of `parse_pingap_config` (models.rs 182-211). -/
def resolveRule (c : ContainerInfo) : Except String String :=
  match lookupL c.labels "pingap.http.rule" with
  | some explicit_rule => .ok explicit_rule
  | none =>
    let host_rule := (lookupL c.labels "pingap.http.host").map
      (fun h => "Host(`" ++ h ++ "`)")
    let path_rules := (lookupL c.labels "pingap.http.paths").map pathRulesOf
    match host_rule, path_rules with
    | some h, some p => .ok (h ++ " && (" ++ p ++ ")")
    | some h, none => .ok h
    | none, some p => .ok p
    | none, none => .error ("Container " ++ c.name
        ++ " has pingap.enable=true but no routing rule. Provide one of: "
        ++ "pingap.http.rule, pingap.http.host, or pingap.http.paths")

/-- Phase 2 upstream block (models.rs lines 226-238). -/
def upstreamConfigOf (labels : List (String × String)) : Option UpstreamConfig :=
  let weight := (lookupL labels "pingap.upstream.weight").bind parseU32opt
  let strategy := lookupL labels "pingap.upstream.strategy"
  if weight.isSome || strategy.isSome then
    some { weight := weight, strategy := strategy }
  else none

/-- Phase 2 health-check block (models.rs lines 241-246): built from the
path label alone; interval/timeout labels only fill fields. -/
def healthCheckOf (labels : List (String × String)) : Option HealthCheckConfig :=
  (lookupL labels "pingap.health_check.path").map (fun path =>
    { path := path
      interval := lookupL labels "pingap.health_check.interval"
      timeout := lookupL labels "pingap.health_check.timeout" })

/-- Phase 3 & 4 middleware block (models.rs lines 249-298). -/
def middlewareConfigOf (labels : List (String × String)) : Option MiddlewareConfig :=
  let sp := lookupL labels "pingap.middleware.strip_prefix"
  let ap := lookupL labels "pingap.middleware.add_prefix"
  let creq := (lookupL labels "pingap.headers.custom_request").map splitTrim
  let cresp := (lookupL labels "pingap.headers.custom_response").map splitTrim
  let cors := (lookupL labels "pingap.headers.cors.enable").map (fun v => v == "true")
  let comp := (lookupL labels "pingap.middleware.compress").map (fun v => v == "true")
  let ravg := (lookupL labels "pingap.middleware.ratelimit.average").bind parseU32opt
  let rburst := (lookupL labels "pingap.middleware.ratelimit.burst").bind parseU32opt
  let bauth := lookupL labels "pingap.middleware.basic_auth"
  let rsch := lookupL labels "pingap.middleware.redirect_scheme"
  let rre := lookupL labels "pingap.middleware.redirect_regex"
  if sp.isSome || ap.isSome || creq.isSome || cresp.isSome || cors.isSome
      || comp.isSome || ravg.isSome || rburst.isSome || bauth.isSome
      || rsch.isSome || rre.isSome then
    some { stripPrefix := sp, addPrefix := ap
           custom_request_headers := creq, custom_response_headers := cresp
           cors_enabled := cors, compress := comp
           ratelimit_average := ravg, ratelimit_burst := rburst
           basic_auth := bauth, redirect_scheme := rsch, redirect_regex := rre }
  else none

/-- Top-level TLS flag (models.rs lines 222-223): `== "true"` on the label. -/
def tlsFlagOf (labels : List (String × String)) : Option Bool :=
  (lookupL labels "pingap.http.tls.enabled").map (fun v => v == "true")

/-- Phase 4 TLS block (models.rs lines 301-315): only when the flag is
exactly `true`. -/
def tlsConfigOf (labels : List (String × String)) : Option TlsConfig :=
  if tlsFlagOf labels = some true then
    some { enabled := true
           redirect := (lookupL labels "pingap.tls.redirect").map (fun v => v == "true")
           domains := (lookupL labels "pingap.tls.domains").map splitTrim }
  else none

/-- The record built at the end of `parse_pingap_config` (models.rs 317-330),
given the already-resolved ip, port and rule. -/
def mkServiceConfig (c : ContainerInfo) (ip : String) (port : Nat) (rule : String) :
    PingapServiceConfig :=
  { name := serviceNameOf c
    upstreams := [(lookupL c.labels "pingap.service.address").getD
      (ip ++ ":" ++ toString port)]
    location :=
      { rule := rule
        priority := (lookupL c.labels "pingap.http.priority").bind parseI32opt
        middlewares := (lookupL c.labels "pingap.http.middlewares").map splitTrim
        tls := tlsFlagOf c.labels }
    upstream_config := upstreamConfigOf c.labels
    health_check := healthCheckOf c.labels
    middleware_config := middlewareConfigOf c.labels
    tls_config := tlsConfigOf c.labels }

/-- `ContainerInfo::parse_pingap_config` (models.rs lines 141-331): the
label-to-configuration compiler.  Early returns become `Except` short
circuits, in source order: enable check, IP, port, rule. -/
def parse_pingap_config (c : ContainerInfo) : Except String (Option PingapServiceConfig) :=
  if lookupL c.labels "pingap.enable" ≠ some "true" then .ok none
  else
    match resolveIp c with
    | .error e => .error e
    | .ok ip =>
      match resolvePort c with
      | .error e => .error e
      | .ok port =>
        match resolveRule c with
        | .error e => .error e
        | .ok rule => .ok (some (mkServiceConfig c ip port rule))

/-! ## Remote apply/delete protocol (`src/pingap.rs`) -/

/-- `reqwest::StatusCode::is_success`: 2xx. -/
def isSuccessStatus (s : Nat) : Bool := 200 ≤ s && s ≤ 299

/-- `List.isPrefixOf` lifted to strings; models `str::starts_with`. -/
def startsWithL (pat s : String) : Bool := pat.data.isPrefixOf s.data

/-- Fuel-indexed worker for `stripPrefixAll` (structural recursion on the
fuel so the function reduces definitionally; each strip consumes at least
one character, so `s.length` fuel is always enough). -/
def stripPrefixFuel : Nat → List Char → List Char → List Char
  | 0, _, s => s
  | n + 1, pat, s =>
    if pat.isPrefixOf s ∧ pat ≠ [] then stripPrefixFuel n pat (s.drop pat.length)
    else s

/-- `str::trim_start_matches(pat)` on char lists: repeatedly strip the
pattern while it is a prefix. -/
def stripPrefixAll (pat s : List Char) : List Char :=
  stripPrefixFuel s.length pat s

/-- `str::trim_start_matches` with a string pattern. -/
def trimStartMatchesStr (pat s : String) : String :=
  ⟨stripPrefixAll pat.data s.data⟩

/-- `str::trim_end_matches(c)`: drop every trailing occurrence of one char. -/
def trimEndMatchesChar (ch : Char) (s : String) : String :=
  ⟨(s.data.reverse.dropWhile (fun c => c = ch)).reverse⟩

/-- The discrete `host`/`path` fields of the location payload built by
`apply_config` (pingap.rs lines 63-77): both start empty; a rule starting
with `Host(` fills `host` from the trimmed rule text, else a rule starting
with `PathPrefix(` fills `path`. -/
def extractHostPath (rule : String) : String × String :=
  if startsWithL "Host(" rule then
    (trimEndMatchesChar ')' (trimStartMatchesStr "Host(" rule), "")
  else if startsWithL "PathPrefix(" rule then
    ("", trimEndMatchesChar ')' (trimStartMatchesStr "PathPrefix(" rule))
  else ("", "")

/-- The location payload fields `apply_config` uploads for a service. -/
structure LocationPayload where
  upstream : String
  host : String
  path : String
deriving Repr, DecidableEq

/-- Location payload construction in `apply_config` (pingap.rs 63-77). -/
def buildLocationPayload (config : PingapServiceConfig) : LocationPayload :=
  { upstream := config.name
    host := (extractHostPath config.location.rule).1
    path := (extractHostPath config.location.rule).2 }

/-- Transient error raised inside one apply/delete attempt; the payload
records which step failed and the remote's response (pingap.rs lines 56-59,
94-97, 122-125, 133-137). -/
inductive RemoteErr where
  | upstreamApply (body : String)
  | locationApply (body : String)
  | locationDelete (status : Nat)
  | upstreamDelete (status : Nat)
deriving Repr, DecidableEq

/-- One attempt of the two-step apply sequence (the closure `op` in
`apply_config`, pingap.rs lines 38-101): POST the upstream, then POST the
location; a non-2xx response at either step is a transient error.  The
remote's two responses (status and body text) are inputs. -/
def applyAttempt (config : PingapServiceConfig) (upStatus : Nat) (upBody : String)
    (locStatus : Nat) (locBody : String) : Except RemoteErr LocationPayload :=
  if isSuccessStatus upStatus then
    if isSuccessStatus locStatus then .ok (buildLocationPayload config)
    else .error (.locationApply locBody)
  else .error (.upstreamApply upBody)

/-- One attempt of the two-step delete sequence (the closure `op` in
`delete_config`, pingap.rs lines 115-141): DELETE the location, then DELETE
the upstream; a response that is neither 2xx nor 404 at either step is a
transient error, 404 counts as success for that step. -/
def deleteAttempt (locStatus upStatus : Nat) : Except RemoteErr Unit :=
  if ¬ isSuccessStatus locStatus ∧ locStatus ≠ 404 then
    .error (.locationDelete locStatus)
  else if ¬ isSuccessStatus upStatus ∧ upStatus ≠ 404 then
    .error (.upstreamDelete upStatus)
  else .ok ()

/-- `backoff::future::retry` on the delete closure, with the bounded backoff
budget modelled as the finite list of per-attempt remote responses (each
entry: location-delete status, upstream-delete status): a transient error
with attempts remaining is retried; the last attempt's outcome is final. -/
def retryDelete : List (Nat × Nat) → Except RemoteErr Unit
  | [] => .ok ()
  | [r] => deleteAttempt r.1 r.2
  | r :: r2 :: rest =>
    match deleteAttempt r.1 r.2 with
    | .ok _ => .ok ()
    | .error _ => retryDelete (r2 :: rest)

/-! ## Reconciliation state handling (`src/main.rs`) -/

/-- The `container_services` map (container id → applied service name),
as an association list with unique keys. -/
def StateMap := List (String × String)

/-- `HashMap::remove`'s effect on the map. -/
def eraseSM (m : StateMap) (k : String) : StateMap :=
  match m with
  | [] => []
  | p :: rest => if p.1 = k then eraseSM rest k else p :: eraseSM rest k

/-- `HashMap::insert`. -/
def insertSM (m : StateMap) (k v : String) : StateMap :=
  (k, v) :: eraseSM m k

/-- Lookup in the state map. -/
def lookupSM (m : StateMap) (k : String) : Option String := lookupL m k

/-- Handler for a `start` event (main.rs lines 83-103): inspect the
container, compile; on compile success with a config, apply it and record
the mapping only when the apply succeeded.  The inspect result and the
apply outcome are inputs standing for the two remote calls. -/
def handleStart (st : StateMap) (inspected : Except String ContainerInfo)
    (applyOk : Bool) : StateMap :=
  match inspected with
  | .error _ => st
  | .ok c =>
    match parse_pingap_config c with
    | .ok (some service_config) =>
      if applyOk then insertSM st c.id service_config.name else st
    | .ok none => st
    | .error _ => st

/-- The attribute-based fallback service-name derivation in the stop/die
handler (main.rs lines 114-126): only when the attributes mark the
container enabled. -/
def fallbackServiceName (attributes : List (String × String)) : Option String :=
  let nm := (lookupL attributes "name").getD ""
  let s_name := (lookupL attributes "pingap.service.name").getD (trimStartChar '/' nm)
  if lookupL attributes "pingap.enable" = some "true" then some s_name else none

/-- Handler for a `die`/`stop` event (main.rs lines 104-134): the tracked
entry is removed from the map up front (`HashMap::remove`), its name is the
retraction target when present, else the attribute fallback is consulted.
The delete outcome is an input standing for `delete_config`; the resulting
map does not depend on it, mirroring the source.  Returns (new map,
service name retracted, if any). -/
def handleStopDie (st : StateMap) (container_id : String)
    (attributes : List (String × String)) (deleteOk : Bool) :
    StateMap × Option String :=
  let service_name_opt := lookupSM st container_id
  let st' := eraseSM st container_id
  let _ := deleteOk
  match service_name_opt with
  | some nm => (st', some nm)
  | none => (st', fallbackServiceName attributes)

/-- One container's step of initial synchronization (main.rs lines 47-64):
insert into the map only when the compile yields a configuration and the
apply (the container's paired outcome) succeeded. -/
def syncStep (st : StateMap) (cb : ContainerInfo × Bool) : StateMap :=
  match parse_pingap_config cb.1 with
  | .ok (some service_config) =>
    if cb.2 then insertSM st cb.1.id service_config.name else st
  | _ => st

/-- Initial synchronization (main.rs lines 44-65): fold the running
containers, starting from the empty map (each container paired with its
apply outcome). -/
def initialSync (containers : List (ContainerInfo × Bool)) : StateMap :=
  containers.foldl syncStep []

/-! ## Shared lemmas -/

/-- A successful compile with a configuration present is exactly: the enable
label reads `true` and the IP, port and rule resolutions all succeed, the
result being the record built from them. -/
theorem parse_ok_some_iff (c : ContainerInfo) (cfg : PingapServiceConfig) :
    parse_pingap_config c = .ok (some cfg) ↔
      lookupL c.labels "pingap.enable" = some "true" ∧
      ∃ ip port rule, resolveIp c = .ok ip ∧ resolvePort c = .ok port ∧
        resolveRule c = .ok rule ∧ cfg = mkServiceConfig c ip port rule := by
  unfold parse_pingap_config
  by_cases he : lookupL c.labels "pingap.enable" = some "true"
  · simp only [he, ne_eq, not_true_eq_false, if_false, true_and]
    cases hip : resolveIp c with
    | error e => simp [hip]
    | ok ip =>
      cases hpt : resolvePort c with
      | error e => simp [hpt]
      | ok port =>
        cases hr : resolveRule c with
        | error e => simp [hr]
        | ok rule =>
          constructor
          · intro h
            have hcfg : cfg = mkServiceConfig c ip port rule := by
              have := (Except.ok.injEq (α := Option PingapServiceConfig)
                (ε := String) _ _).mp h
              exact (Option.some.injEq _ _).mp this |>.symm
            exact ⟨ip, port, rule, rfl, rfl, rfl, hcfg⟩
          · rintro ⟨ip', port', rule', h1, h2, h3, h4⟩
            cases h1; cases h2; cases h3; cases h4
            rfl
  · simp [he]

/-- Erasing a key makes it unfindable. -/
theorem lookupL_erase_self (m : StateMap) (k : String) :
    lookupL (eraseSM m k) k = none := by
  induction m with
  | nil => rfl
  | cons p rest ih =>
    by_cases h : p.1 = k
    · simpa [eraseSM, h] using ih
    · simpa [eraseSM, lookupL, h] using ih

/-- Erasing one key leaves lookups of other keys unchanged. -/
theorem lookupL_erase_ne (m : StateMap) (k i : String) (h : i ≠ k) :
    lookupL (eraseSM m k) i = lookupL m i := by
  induction m with
  | nil => rfl
  | cons p rest ih =>
    by_cases hp : p.1 = k
    · have hpi : p.1 ≠ i := by rw [hp]; exact fun hh => h hh.symm
      rw [eraseSM]
      simp only [hp, if_true]
      rw [ih, lookupL]
      simp [hpi]
    · rw [eraseSM]
      simp only [hp, if_false]
      by_cases hpi : p.1 = i
      · simp [lookupL, hpi]
      · simp only [lookupL, hpi, if_false]
        exact ih

/-- Lookup after an insert: the inserted key maps to the new value, other
keys are unchanged. -/
theorem lookupL_insert (m : StateMap) (k v i : String) :
    lookupL (insertSM m k v) i = if k = i then some v else lookupL m i := by
  by_cases h : k = i
  · simp [insertSM, lookupL, h]
  · simp only [insertSM, lookupL, h, if_false]
    exact lookupL_erase_ne m k i (fun hh => h hh.symm)

/-- The upstream-hints block is present exactly when the weight label parses
or the strategy label is present. -/
theorem upstreamConfigOf_isSome (ls : List (String × String)) :
    (upstreamConfigOf ls).isSome =
      (((lookupL ls "pingap.upstream.weight").bind parseU32opt).isSome
        || (lookupL ls "pingap.upstream.strategy").isSome) := by
  unfold upstreamConfigOf
  dsimp only
  split <;> simp_all

/-- The health-check block is present exactly when the path label is present. -/
theorem healthCheckOf_isSome (ls : List (String × String)) :
    (healthCheckOf ls).isSome = (lookupL ls "pingap.health_check.path").isSome := by
  unfold healthCheckOf
  cases lookupL ls "pingap.health_check.path" <;> rfl

/-- The middleware bundle is present exactly when one of its eleven derived
options is present (nine label lookups, two parsed rate limits). -/
theorem middlewareConfigOf_isSome (ls : List (String × String)) :
    (middlewareConfigOf ls).isSome =
      ((lookupL ls "pingap.middleware.strip_prefix").isSome
        || (lookupL ls "pingap.middleware.add_prefix").isSome
        || (lookupL ls "pingap.headers.custom_request").isSome
        || (lookupL ls "pingap.headers.custom_response").isSome
        || (lookupL ls "pingap.headers.cors.enable").isSome
        || (lookupL ls "pingap.middleware.compress").isSome
        || ((lookupL ls "pingap.middleware.ratelimit.average").bind parseU32opt).isSome
        || ((lookupL ls "pingap.middleware.ratelimit.burst").bind parseU32opt).isSome
        || (lookupL ls "pingap.middleware.basic_auth").isSome
        || (lookupL ls "pingap.middleware.redirect_scheme").isSome
        || (lookupL ls "pingap.middleware.redirect_regex").isSome) := by
  unfold middlewareConfigOf
  dsimp only
  split <;> simp_all

/-- The TLS detail block is present exactly when the TLS flag label reads
exactly `true`. -/
theorem tlsConfigOf_isSome (ls : List (String × String)) :
    (tlsConfigOf ls).isSome =
      ((lookupL ls "pingap.http.tls.enabled") == some "true") := by
  unfold tlsConfigOf tlsFlagOf
  cases h : lookupL ls "pingap.http.tls.enabled" with
  | none => simp
  | some v =>
    by_cases hv : v = "true"
    · simp [hv]
    · have : (v == "true") = false := by simpa using hv
      simp [this, hv]

/-- A pattern that is not a prefix is never stripped, for any fuel. -/
theorem stripPrefixFuel_stop (n : Nat) (pat s : List Char)
    (h : pat.isPrefixOf s = false) : stripPrefixFuel n pat s = s := by
  cases n with
  | zero => rfl
  | succ m => simp [stripPrefixFuel, h]

/-- Stripping a wrapped list removes exactly one copy of the pattern when
the remainder does not start with the pattern again. -/
theorem stripPrefixAll_wrap (pat t : List Char) (hne : pat ≠ [])
    (hnp : pat.isPrefixOf t = false) : stripPrefixAll pat (pat ++ t) = t := by
  unfold stripPrefixAll
  have hlen : (pat ++ t).length = (pat.length + t.length - 1) + 1 := by
    simp only [List.length_append]
    have : 0 < pat.length := List.length_pos.mpr hne
    omega
  rw [hlen]
  have hpre : pat.isPrefixOf (pat ++ t) = true :=
    List.isPrefixOf_iff_prefix.mpr (List.prefix_append _ _)
  simp only [stripPrefixFuel, hpre, hne, ne_eq, not_false_eq_true, and_self, if_true,
    List.drop_left]
  exact stripPrefixFuel_stop _ _ _ hnp

/-- Dropping a char-list pattern with distinct head characters fails. -/
theorem isPrefixOf_cons_false (a b : Char) (as bs : List Char)
    (h : (a == b) = false) : (a :: as).isPrefixOf (b :: bs) = false := by
  simp [List.isPrefixOf, h]

/-- Rule text of the form `Host(`…`)` is reverse-mapped to the backtick
delimited host value. -/
theorem extract_host_canonical (x : String) :
    extractHostPath ("Host(`" ++ x ++ "`)") = ("`" ++ x ++ "`", "") := by
  have hdata : ("Host(`" ++ x ++ "`)").data =
      "Host(".data ++ ('`' :: (x.data ++ ['`', ')'])) := by
    simp [String.data_append]
  have hsw : startsWithL "Host(" ("Host(`" ++ x ++ "`)") = true := by
    unfold startsWithL
    rw [hdata]
    exact List.isPrefixOf_iff_prefix.mpr (List.prefix_append _ _)
  have hnp : "Host(".data.isPrefixOf ('`' :: (x.data ++ ['`', ')'])) = false :=
    isPrefixOf_cons_false _ _ _ _ (by decide)
  have hstrip : trimStartMatchesStr "Host(" ("Host(`" ++ x ++ "`)") =
      ⟨'`' :: (x.data ++ ['`', ')'])⟩ := by
    unfold trimStartMatchesStr
    rw [hdata, stripPrefixAll_wrap _ _ (by decide) hnp]
  have htrim : trimEndMatchesChar ')' ⟨'`' :: (x.data ++ ['`', ')'])⟩ =
      "`" ++ x ++ "`" := by
    unfold trimEndMatchesChar
    show String.mk ((('`' :: (x.data ++ ['`', ')'])).reverse.dropWhile
      (fun c => c = ')')).reverse) = _
    have : ('`' :: (x.data ++ ['`', ')'])).reverse =
        ')' :: '`' :: (x.data.reverse ++ ['`']) := by
      simp
    rw [this]
    simp only [List.dropWhile]
    norm_num
    apply String.ext
    simp [String.data_append]
  unfold extractHostPath
  rw [hsw]
  simp only [if_true]
  rw [hstrip, htrim]

/-- Rule text of the form `PathPrefix(`…`)` is reverse-mapped to the
backtick delimited path value. -/
theorem extract_path_canonical (p : String) :
    extractHostPath ("PathPrefix(`" ++ p ++ "`)") = ("", "`" ++ p ++ "`") := by
  have hdata : ("PathPrefix(`" ++ p ++ "`)").data =
      "PathPrefix(".data ++ ('`' :: (p.data ++ ['`', ')'])) := by
    simp [String.data_append]
  have hswH : startsWithL "Host(" ("PathPrefix(`" ++ p ++ "`)") = false := by
    unfold startsWithL
    rw [hdata]
    exact isPrefixOf_cons_false _ _ _ _ (by decide)
  have hsw : startsWithL "PathPrefix(" ("PathPrefix(`" ++ p ++ "`)") = true := by
    unfold startsWithL
    rw [hdata]
    exact List.isPrefixOf_iff_prefix.mpr (List.prefix_append _ _)
  have hnp : "PathPrefix(".data.isPrefixOf ('`' :: (p.data ++ ['`', ')'])) = false :=
    isPrefixOf_cons_false _ _ _ _ (by decide)
  have hstrip : trimStartMatchesStr "PathPrefix(" ("PathPrefix(`" ++ p ++ "`)") =
      ⟨'`' :: (p.data ++ ['`', ')'])⟩ := by
    unfold trimStartMatchesStr
    rw [hdata, stripPrefixAll_wrap _ _ (by decide) hnp]
  have htrim : trimEndMatchesChar ')' ⟨'`' :: (p.data ++ ['`', ')'])⟩ =
      "`" ++ p ++ "`" := by
    unfold trimEndMatchesChar
    show String.mk ((('`' :: (p.data ++ ['`', ')'])).reverse.dropWhile
      (fun c => c = ')')).reverse) = _
    have : ('`' :: (p.data ++ ['`', ')'])).reverse =
        ')' :: '`' :: (p.data.reverse ++ ['`']) := by
      simp
    rw [this]
    simp only [List.dropWhile]
    norm_num
    apply String.ext
    simp [String.data_append]
  unfold extractHostPath
  rw [hswH, hsw]
  simp only [if_true, Bool.false_eq_true, if_false]
  rw [hstrip, htrim]

/-- Fold invariant for initial synchronization: anything found in the
resulting map was either present initially or inserted by a container that
compiled successfully and whose apply succeeded. -/
theorem syncFold_lookup (cs : List (ContainerInfo × Bool)) (st : StateMap)
    (i s : String) (h : lookupL (cs.foldl syncStep st) i = some s) :
    lookupL st i = some s ∨ ∃ c, (c, true) ∈ cs ∧ c.id = i ∧
      ∃ cfg, parse_pingap_config c = .ok (some cfg) ∧ cfg.name = s := by
  induction cs generalizing st with
  | nil => exact Or.inl h
  | cons cb rest ih =>
    rcases ih (syncStep st cb) h with h1 | h2
    · unfold syncStep at h1
      rcases hp : parse_pingap_config cb.1 with e | o
      · rw [hp] at h1
        exact Or.inl h1
      · rcases o with _ | cfg
        · rw [hp] at h1
          exact Or.inl h1
        · rw [hp] at h1
          rcases hb : cb.2 with _ | _
          · rw [hb] at h1
            simp only [if_false] at h1
            exact Or.inl h1
          · rw [hb] at h1
            simp only [if_true] at h1
            rw [lookupL_insert] at h1
            by_cases hid : cb.1.id = i
            · rw [if_pos hid] at h1
              refine Or.inr ⟨cb.1, ?_, hid, cfg, hp, (Option.some.injEq _ _).mp h1⟩
              have : cb = (cb.1, true) := by
                cases cb
                simp_all
              rw [← this]
              exact List.mem_cons_self _ _
            · rw [if_neg hid] at h1
              exact Or.inl h1
    · rcases h2 with ⟨c, hmem, rest'⟩
      exact Or.inr ⟨c, List.mem_cons_of_mem _ hmem, rest'⟩

/-! ## Claim theorems -/

/-- C5: for every container snapshot whose label mapping does not map the
enable label to exactly `"true"` (including absence and any other value),
compile returns success with no configuration, regardless of all other
labels and fields. -/
theorem C5_disabled_returns_none (c : ContainerInfo)
    (h : lookupL c.labels "pingap.enable" ≠ some "true") :
    parse_pingap_config c = .ok none := by
  unfold parse_pingap_config
  simp [h]

/-- Witness for C5 at a snapshot carrying `pingap.enable=True` (wrong case)
and otherwise unusable fields. -/
theorem C5_disabled_returns_none_witness :
    lookupL [("pingap.enable", "True"), ("pingap.http.host", "x")]
      "pingap.enable" ≠ some "true" ∧
    parse_pingap_config
      { id := "d1", name := "/d"
        labels := [("pingap.enable", "True"), ("pingap.http.host", "x")]
        ip_address := none, ports := [], networks := [] } = .ok none :=
  ⟨by decide, C5_disabled_returns_none _ (by decide)⟩

/-- C8: delete performs the route (location) deletion then the upstream
deletion; a 404 on either step counts as that step succeeding, so 404/404
is overall success; any other non-2xx response on either step is a
transient (retryable) error, not an immediate final one: with retry budget
left the next attempt decides. -/
theorem C8_delete_not_found_is_success :
    (deleteAttempt 404 404 = .ok ()) ∧
    (retryDelete [(404, 404)] = .ok ()) ∧
    (∀ ls us, isSuccessStatus ls = false → ls ≠ 404 →
      deleteAttempt ls us = .error (.locationDelete ls)) ∧
    (∀ ls us, (isSuccessStatus ls = true ∨ ls = 404) →
      isSuccessStatus us = false → us ≠ 404 →
      deleteAttempt ls us = .error (.upstreamDelete us)) ∧
    (∀ r r2 rest e, deleteAttempt r.1 r.2 = .error e →
      retryDelete (r :: r2 :: rest) = retryDelete (r2 :: rest)) ∧
    (retryDelete [(500, 500), (404, 404)] = .ok ()) := by
  refine ⟨by decide, by decide, ?_, ?_, ?_, by decide⟩
  · intro ls us h1 h2
    simp [deleteAttempt, h1, h2]
  · intro ls us h1 h2 h3
    rcases h1 with h1 | h1 <;> simp [deleteAttempt, h1, h2, h3]
  · intro r r2 rest e h
    simp [retryDelete, h]

/-- Witness for C8: a 500 on the location step is a transient location
error, and with budget left a failing attempt defers to the next one. -/
theorem C8_delete_not_found_is_success_witness :
    isSuccessStatus 500 = false ∧ (500 : Nat) ≠ 404 ∧
    deleteAttempt 500 404 = .error (.locationDelete 500) ∧
    retryDelete [(500, 404), (404, 404)] = retryDelete [(404, 404)] :=
  ⟨by decide, by decide, C8_delete_not_found_is_success.2.2.1 500 404
      (by decide) (by decide),
    C8_delete_not_found_is_success.2.2.2.2.1 (500, 404) (404, 404) []
      (.locationDelete 500)
      (C8_delete_not_found_is_success.2.2.1 500 404 (by decide) (by decide))⟩

/-- C9: on a stop/die event for a tracked identity, the retracted service
name is the tracked entry's name, whatever the event attributes would
derive; the attribute-based fallback is consulted only when the identity is
not tracked. -/
theorem C9_tracked_name_wins :
    (∀ st cid attrs dok nm, lookupSM st cid = some nm →
      handleStopDie st cid attrs dok = (eraseSM st cid, some nm)) ∧
    (∀ st cid attrs dok, lookupSM st cid = none →
      handleStopDie st cid attrs dok = (eraseSM st cid, fallbackServiceName attrs)) := by
  constructor
  · intro st cid attrs dok nm h
    simp [handleStopDie, h]
  · intro st cid attrs dok h
    simp [handleStopDie, h]

/-- Witness for C9: the tracked name `tracked-svc` is retracted even though
the attributes would derive `attr-svc`. -/
theorem C9_tracked_name_wins_witness :
    handleStopDie [("c1", "tracked-svc")] "c1"
      [("pingap.enable", "true"), ("pingap.service.name", "attr-svc")] true =
      ([], some "tracked-svc") ∧
    fallbackServiceName
      [("pingap.enable", "true"), ("pingap.service.name", "attr-svc")] =
      some "attr-svc" :=
  ⟨C9_tracked_name_wins.1 [("c1", "tracked-svc")] "c1"
      [("pingap.enable", "true"), ("pingap.service.name", "attr-svc")] true
      "tracked-svc" (by decide),
    by decide⟩

/-- C2 counterexample: on a stop/die event whose delete fails
(`deleteOk = false`), the identity is nonetheless gone from the map — the
claim's "after a delete that fails the identity is still tracked" is false
on the code, which removes the entry before attempting the delete. -/
theorem C2_counterexample :
    (handleStopDie [("c1", "svc")] "c1" [] false).1 = [] ∧
    ¬ lookupSM ((handleStopDie [("c1", "svc")] "c1" [] false).1) "c1" = some "svc" := by
  constructor
  · rfl
  · intro h
    cases h

/-- C2 (amended): a container identity enters the map only through a
successful configuration application (initial sync and start events insert
exactly on apply success with a compiled config), and on a stop/die event
the identity is removed from the map unconditionally, before and regardless
of the delete's outcome. -/
theorem C2_tracking_invariant :
    (∀ st cid attrs dok, (handleStopDie st cid attrs dok).1 = eraseSM st cid) ∧
    (∀ st es aok, handleStart st (.error es) aok = st) ∧
    (∀ st c, handleStart st (.ok c) false = st) ∧
    (∀ st c cfg, parse_pingap_config c = .ok (some cfg) →
      handleStart st (.ok c) true = insertSM st c.id cfg.name) ∧
    (∀ st c aok, parse_pingap_config c = .ok none → handleStart st (.ok c) aok = st) ∧
    (∀ st c aok e, parse_pingap_config c = .error e → handleStart st (.ok c) aok = st) ∧
    (∀ cs i s, lookupSM (initialSync cs) i = some s →
      ∃ c, (c, true) ∈ cs ∧ c.id = i ∧
        ∃ cfg, parse_pingap_config c = .ok (some cfg) ∧ cfg.name = s) := by
  refine ⟨?_, ?_, ?_, ?_, ?_, ?_, ?_⟩
  · intro st cid attrs dok
    cases h : lookupSM st cid <;> simp [handleStopDie, h]
  · intro st es aok
    rfl
  · intro st c
    rcases h : parse_pingap_config c with e | o
    · simp [handleStart, h]
    · rcases o with _ | cfg <;> simp [handleStart, h]
  · intro st c cfg h
    simp [handleStart, h]
  · intro st c aok h
    simp [handleStart, h]
  · intro st c aok e h
    simp [handleStart, h]
  · intro cs i s h
    rcases syncFold_lookup cs [] i s h with h1 | h2
    · cases h1
    · exact h2

/-- Witness for C2 (amended): a start event with a successful apply inserts
the compiled service name; a stop/die with a failing delete erases. -/
theorem C2_tracking_invariant_witness :
    parse_pingap_config
      { id := "w1", name := "/w"
        labels := [("pingap.enable", "true"), ("pingap.http.host", "x")]
        ip_address := some "1.2.3.4", ports := [80], networks := [] } =
      .ok (some
        { name := "w", upstreams := ["1.2.3.4:80"]
          location := { rule := "Host(`x`)", priority := none
                        middlewares := none, tls := none }
          upstream_config := none, health_check := none
          middleware_config := none, tls_config := none }) ∧
    handleStart []
      (.ok { id := "w1", name := "/w"
             labels := [("pingap.enable", "true"), ("pingap.http.host", "x")]
             ip_address := some "1.2.3.4", ports := [80], networks := [] })
      true = [("w1", "w")] ∧
    (handleStopDie [("w1", "w")] "w1" [] false).1 = [] :=
  ⟨by decide,
    C2_tracking_invariant.2.2.2.1 []
      { id := "w1", name := "/w"
        labels := [("pingap.enable", "true"), ("pingap.http.host", "x")]
        ip_address := some "1.2.3.4", ports := [80], networks := [] }
      { name := "w", upstreams := ["1.2.3.4:80"]
        location := { rule := "Host(`x`)", priority := none
                      middlewares := none, tls := none }
        upstream_config := none, health_check := none
        middleware_config := none, tls_config := none }
      (by decide),
    C2_tracking_invariant.1 [("w1", "w")] "w1" [] false⟩

/-- C1 counterexample: an enabled snapshot with the address-override label
but no resolvable IP (no primary IP, empty per-network mapping) makes
compile fail — the override does not rescue a failing IP resolution, so the
claimed "compile succeeds even when IP and port resolution would fail" is
false on the code, which resolves IP and port before reading the override. -/
theorem C1_counterexample :
    parse_pingap_config
      { id := "c1", name := "/app"
        labels := [("pingap.enable", "true"),
                   ("pingap.service.address", "10.0.0.5:9000"),
                   ("pingap.http.host", "x")]
        ip_address := none, ports := [], networks := [] } =
      .error "No IP address found for container /app" := by decide

/-- C1 (amended): whenever compile succeeds with a configuration and the
address-override label is present, the upstream list is exactly the
override value as its sole entry; but IP resolution still runs first, and
its failure fails the whole compile despite the override. -/
theorem C1_address_override_wins :
    (∀ c cfg a, parse_pingap_config c = .ok (some cfg) →
      lookupL c.labels "pingap.service.address" = some a →
      cfg.upstreams = [a]) ∧
    (∀ c e, lookupL c.labels "pingap.enable" = some "true" →
      resolveIp c = .error e → parse_pingap_config c = .error e) := by
  constructor
  · intro c cfg a h ha
    rcases (parse_ok_some_iff c cfg).mp h with ⟨he, ip, port, rule, h1, h2, h3, h4⟩
    subst h4
    simp [mkServiceConfig, ha]
  · intro c e he hip
    unfold parse_pingap_config
    simp [he, hip]

/-- Witness for C1 (amended): the override is the sole upstream entry on a
successful compile, and an unresolvable IP fails compile despite the
override. -/
theorem C1_address_override_wins_witness :
    ({ name := "w", upstreams := ["10.0.0.5:9000"]
       location := { rule := "Host(`x`)", priority := none
                     middlewares := none, tls := none }
       upstream_config := none, health_check := none
       middleware_config := none, tls_config := none } :
        PingapServiceConfig).upstreams = ["10.0.0.5:9000"] ∧
    parse_pingap_config
      { id := "c1", name := "/app"
        labels := [("pingap.enable", "true"),
                   ("pingap.service.address", "10.0.0.5:9000"),
                   ("pingap.http.host", "x")]
        ip_address := none, ports := [], networks := [] } =
      .error "No IP address found for container /app" :=
  ⟨C1_address_override_wins.1
      { id := "w1", name := "/w"
        labels := [("pingap.enable", "true"),
                   ("pingap.service.address", "10.0.0.5:9000"),
                   ("pingap.http.host", "x")]
        ip_address := some "1.2.3.4", ports := [80], networks := [] }
      { name := "w", upstreams := ["10.0.0.5:9000"]
        location := { rule := "Host(`x`)", priority := none
                      middlewares := none, tls := none }
        upstream_config := none, health_check := none
        middleware_config := none, tls_config := none }
      "10.0.0.5:9000" (by decide) (by decide),
    C1_address_override_wins.2
      { id := "c1", name := "/app"
        labels := [("pingap.enable", "true"),
                   ("pingap.service.address", "10.0.0.5:9000"),
                   ("pingap.http.host", "x")]
        ip_address := none, ports := [], networks := [] }
      "No IP address found for container /app" (by decide) (by decide)⟩

/-- C3 counterexample: an enabled snapshot carrying only a health-check
interval label (no path label) compiles successfully with the health-check
block absent — the claim's "interval or timeout alone yields a present
health-check block" is false on the code, which builds the block from the
path label only. -/
theorem C3_counterexample :
    (parse_pingap_config
      { id := "h1", name := "/h"
        labels := [("pingap.enable", "true"), ("pingap.http.host", "x"),
                   ("pingap.health_check.interval", "10s")]
        ip_address := some "1.2.3.4", ports := [80], networks := [] }).map
      (Option.map (fun cfg => cfg.health_check)) = .ok (some none) := by decide

/-- C3 (amended): for every enabled snapshot on which compile succeeds, the
upstream-hints block is present iff the weight label parses as a u32 or the
strategy label is present; the health-check block is present iff the path
label is present (interval/timeout alone do not produce it); the middleware
bundle is present iff one of its eleven derived options is present (nine
looked-up labels, two parsed rate limits); the TLS detail block is present
iff the TLS flag label reads exactly `true`; absent blocks are entirely
absent. -/
theorem C3_extension_blocks (c : ContainerInfo) (cfg : PingapServiceConfig)
    (h : parse_pingap_config c = .ok (some cfg)) :
    (cfg.upstream_config.isSome =
      (((lookupL c.labels "pingap.upstream.weight").bind parseU32opt).isSome
        || (lookupL c.labels "pingap.upstream.strategy").isSome)) ∧
    (cfg.health_check.isSome = (lookupL c.labels "pingap.health_check.path").isSome) ∧
    (cfg.middleware_config.isSome =
      ((lookupL c.labels "pingap.middleware.strip_prefix").isSome
        || (lookupL c.labels "pingap.middleware.add_prefix").isSome
        || (lookupL c.labels "pingap.headers.custom_request").isSome
        || (lookupL c.labels "pingap.headers.custom_response").isSome
        || (lookupL c.labels "pingap.headers.cors.enable").isSome
        || (lookupL c.labels "pingap.middleware.compress").isSome
        || ((lookupL c.labels "pingap.middleware.ratelimit.average").bind parseU32opt).isSome
        || ((lookupL c.labels "pingap.middleware.ratelimit.burst").bind parseU32opt).isSome
        || (lookupL c.labels "pingap.middleware.basic_auth").isSome
        || (lookupL c.labels "pingap.middleware.redirect_scheme").isSome
        || (lookupL c.labels "pingap.middleware.redirect_regex").isSome)) ∧
    (cfg.tls_config.isSome = ((lookupL c.labels "pingap.http.tls.enabled") == some "true")) := by
  rcases (parse_ok_some_iff c cfg).mp h with ⟨he, ip, port, rule, h1, h2, h3, h4⟩
  subst h4
  exact ⟨upstreamConfigOf_isSome c.labels, healthCheckOf_isSome c.labels,
    middlewareConfigOf_isSome c.labels, tlsConfigOf_isSome c.labels⟩

/-- Witness for C3 (amended) at the interval-only snapshot: its compiled
config has no health-check block, matching the absent path label. -/
theorem C3_extension_blocks_witness :
    parse_pingap_config
      { id := "h1", name := "/h"
        labels := [("pingap.enable", "true"), ("pingap.http.host", "x"),
                   ("pingap.health_check.interval", "10s")]
        ip_address := some "1.2.3.4", ports := [80], networks := [] } =
      .ok (some
        { name := "h", upstreams := ["1.2.3.4:80"]
          location := { rule := "Host(`x`)", priority := none
                        middlewares := none, tls := none }
          upstream_config := none, health_check := none
          middleware_config := none, tls_config := none }) ∧
    (({ name := "h", upstreams := ["1.2.3.4:80"]
        location := { rule := "Host(`x`)", priority := none
                      middlewares := none, tls := none }
        upstream_config := none, health_check := none
        middleware_config := none, tls_config := none } :
          PingapServiceConfig).health_check.isSome =
      (lookupL [("pingap.enable", "true"), ("pingap.http.host", "x"),
                ("pingap.health_check.interval", "10s")]
        "pingap.health_check.path").isSome) :=
  ⟨by decide,
    (C3_extension_blocks
      { id := "h1", name := "/h"
        labels := [("pingap.enable", "true"), ("pingap.http.host", "x"),
                   ("pingap.health_check.interval", "10s")]
        ip_address := some "1.2.3.4", ports := [80], networks := [] }
      { name := "h", upstreams := ["1.2.3.4:80"]
        location := { rule := "Host(`x`)", priority := none
                      middlewares := none, tls := none }
        upstream_config := none, health_check := none
        middleware_config := none, tls_config := none }
      (by decide)).2.1⟩

/-- C7: without an explicit port label, the compiled upstream address uses
the first exposed port; with no port label and no exposed ports, compile
fails with an error text naming the port label; and a port label that does
not parse as an unsigned 16-bit integer fails compile with an error naming
the offending value. -/
theorem C7_port_resolution :
    (∀ c cfg, parse_pingap_config c = .ok (some cfg) →
      lookupL c.labels "pingap.service.port" = none →
      lookupL c.labels "pingap.service.address" = none →
      ∃ p rest ip, c.ports = p :: rest ∧ resolveIp c = .ok ip ∧
        cfg.upstreams = [ip ++ ":" ++ toString p]) ∧
    (∀ c ip, lookupL c.labels "pingap.enable" = some "true" →
      resolveIp c = .ok ip →
      lookupL c.labels "pingap.service.port" = none → c.ports = [] →
      parse_pingap_config c = .error ("No exposed ports found for container "
        ++ c.name ++ ". Use pingap.service.port label to specify port explicitly.")) ∧
    (∀ c ip ps e, lookupL c.labels "pingap.enable" = some "true" →
      resolveIp c = .ok ip →
      lookupL c.labels "pingap.service.port" = some ps →
      parseU16 ps = .error e →
      parse_pingap_config c = .error ("Invalid port '" ++ ps ++ "': " ++ e)) := by
  refine ⟨?_, ?_, ?_⟩
  · intro c cfg h hp ha
    rcases (parse_ok_some_iff c cfg).mp h with ⟨he, ip, port, rule, h1, h2, h3, h4⟩
    subst h4
    rcases hps : c.ports with _ | ⟨p, rest⟩
    · rw [resolvePort, hp, hps] at h2
      cases h2
    · refine ⟨p, rest, ip, rfl, h1, ?_⟩
      rw [resolvePort, hp, hps] at h2
      cases h2
      simp [mkServiceConfig, ha]
  · intro c ip he hip hp hports
    unfold parse_pingap_config
    simp only [he, ne_eq, not_true_eq_false, if_false, hip]
    rw [resolvePort, hp, hports]
  · intro c ip ps e he hip hp hparse
    have hpt : resolvePort c = .error ("Invalid port '" ++ ps ++ "': " ++ e) := by
      simp [resolvePort, hp, hparse]
    unfold parse_pingap_config
    simp only [he, ne_eq, not_true_eq_false, if_false, hip, hpt]

/-- Witness for C7: port 80 is taken from the exposed-port list; a
portless, exposed-port-less snapshot errors naming the port label; port
label `70000` errors naming the value. -/
theorem C7_port_resolution_witness :
    (∃ p rest ip,
      ({ id := "w1", name := "/w"
         labels := [("pingap.enable", "true"), ("pingap.http.host", "x")]
         ip_address := some "1.2.3.4", ports := [80], networks := [] } :
          ContainerInfo).ports = p :: rest ∧
      resolveIp { id := "w1", name := "/w"
                  labels := [("pingap.enable", "true"), ("pingap.http.host", "x")]
                  ip_address := some "1.2.3.4", ports := [80], networks := [] } = .ok ip ∧
      ({ name := "w", upstreams := ["1.2.3.4:80"]
         location := { rule := "Host(`x`)", priority := none
                       middlewares := none, tls := none }
         upstream_config := none, health_check := none
         middleware_config := none, tls_config := none } :
          PingapServiceConfig).upstreams = [ip ++ ":" ++ toString p]) ∧
    parse_pingap_config
      { id := "n1", name := "/n"
        labels := [("pingap.enable", "true"), ("pingap.http.host", "x")]
        ip_address := some "1.2.3.4", ports := [], networks := [] } =
      .error "No exposed ports found for container /n. Use pingap.service.port label to specify port explicitly." ∧
    parse_pingap_config
      { id := "b1", name := "/b"
        labels := [("pingap.enable", "true"), ("pingap.http.host", "x"),
                   ("pingap.service.port", "70000")]
        ip_address := some "1.2.3.4", ports := [], networks := [] } =
      .error "Invalid port '70000': number too large to fit in target type" :=
  ⟨C7_port_resolution.1
      { id := "w1", name := "/w"
        labels := [("pingap.enable", "true"), ("pingap.http.host", "x")]
        ip_address := some "1.2.3.4", ports := [80], networks := [] }
      { name := "w", upstreams := ["1.2.3.4:80"]
        location := { rule := "Host(`x`)", priority := none
                      middlewares := none, tls := none }
        upstream_config := none, health_check := none
        middleware_config := none, tls_config := none }
      (by decide) (by decide) (by decide),
    C7_port_resolution.2.1
      { id := "n1", name := "/n"
        labels := [("pingap.enable", "true"), ("pingap.http.host", "x")]
        ip_address := some "1.2.3.4", ports := [], networks := [] }
      "1.2.3.4" (by decide) (by decide) (by decide) (by decide),
    C7_port_resolution.2.2
      { id := "b1", name := "/b"
        labels := [("pingap.enable", "true"), ("pingap.http.host", "x"),
                   ("pingap.service.port", "70000")]
        ip_address := some "1.2.3.4", ports := [], networks := [] }
      "1.2.3.4" "70000" "number too large to fit in target type"
      (by decide) (by decide) (by decide) (by decide)⟩

/-- C6: with no explicit rule label, host and paths labels compose the rule
as the host predicate AND-combined with the parenthesized OR-join of one
`PathPrefix` per comma-separated, trimmed path entry, in order; host alone
gives the host predicate; paths alone give the OR-join; neither fails with
the error enumerating the three rule-related label options. -/
theorem C6_rule_composition :
    (∀ c cfg h p, parse_pingap_config c = .ok (some cfg) →
      lookupL c.labels "pingap.http.rule" = none →
      lookupL c.labels "pingap.http.host" = some h →
      lookupL c.labels "pingap.http.paths" = some p →
      cfg.location.rule = "Host(`" ++ h ++ "`)" ++ " && ("
        ++ joinSep " || " ((splitTrim p).map (fun q => "PathPrefix(`" ++ q ++ "`)"))
        ++ ")") ∧
    (∀ c cfg h, parse_pingap_config c = .ok (some cfg) →
      lookupL c.labels "pingap.http.rule" = none →
      lookupL c.labels "pingap.http.host" = some h →
      lookupL c.labels "pingap.http.paths" = none →
      cfg.location.rule = "Host(`" ++ h ++ "`)") ∧
    (∀ c cfg p, parse_pingap_config c = .ok (some cfg) →
      lookupL c.labels "pingap.http.rule" = none →
      lookupL c.labels "pingap.http.host" = none →
      lookupL c.labels "pingap.http.paths" = some p →
      cfg.location.rule =
        joinSep " || " ((splitTrim p).map (fun q => "PathPrefix(`" ++ q ++ "`)"))) ∧
    (∀ c ip port, lookupL c.labels "pingap.enable" = some "true" →
      resolveIp c = .ok ip → resolvePort c = .ok port →
      lookupL c.labels "pingap.http.rule" = none →
      lookupL c.labels "pingap.http.host" = none →
      lookupL c.labels "pingap.http.paths" = none →
      parse_pingap_config c = .error ("Container " ++ c.name
        ++ " has pingap.enable=true but no routing rule. Provide one of: "
        ++ "pingap.http.rule, pingap.http.host, or pingap.http.paths")) := by
  refine ⟨?_, ?_, ?_, ?_⟩
  · intro c cfg h p hc hr hh hp
    rcases (parse_ok_some_iff c cfg).mp hc with ⟨he, ip, port, rule, h1, h2, h3, h4⟩
    subst h4
    rw [resolveRule, hr] at h3
    simp only [hh, hp, Option.map_some] at h3
    cases h3
    simp [mkServiceConfig, pathRulesOf]
  · intro c cfg h hc hr hh hp
    rcases (parse_ok_some_iff c cfg).mp hc with ⟨he, ip, port, rule, h1, h2, h3, h4⟩
    subst h4
    rw [resolveRule, hr] at h3
    simp only [hh, hp, Option.map_some, Option.map_none] at h3
    cases h3
    simp [mkServiceConfig]
  · intro c cfg p hc hr hh hp
    rcases (parse_ok_some_iff c cfg).mp hc with ⟨he, ip, port, rule, h1, h2, h3, h4⟩
    subst h4
    rw [resolveRule, hr] at h3
    simp only [hh, hp, Option.map_some, Option.map_none] at h3
    cases h3
    simp [mkServiceConfig, pathRulesOf]
  · intro c ip port he hip hpt hr hh hp
    have hrule : resolveRule c = .error ("Container " ++ c.name
        ++ " has pingap.enable=true but no routing rule. Provide one of: "
        ++ "pingap.http.rule, pingap.http.host, or pingap.http.paths") := by
      rw [resolveRule, hr]
      simp [hh, hp]
    unfold parse_pingap_config
    simp only [he, ne_eq, not_true_eq_false, if_false, hip, hpt, hrule]

/-- Witness for C6: host `example.com` plus paths `/a, /b` compose to
`Host(\x60example.com\x60) && (PathPrefix(\x60/a\x60) || PathPrefix(\x60/b\x60))`;
and an enabled snapshot with no rule-related label errors listing all
three options. -/
theorem C6_rule_composition_witness :
    ({ name := "w", upstreams := ["1.2.3.4:80"]
       location := { rule := "Host(`example.com`) && (PathPrefix(`/a`) || PathPrefix(`/b`))"
                     priority := none, middlewares := none, tls := none }
       upstream_config := none, health_check := none
       middleware_config := none, tls_config := none } :
        PingapServiceConfig).location.rule =
      "Host(`example.com`)" ++ " && ("
        ++ joinSep " || " ((splitTrim "/a, /b").map
            (fun q => "PathPrefix(`" ++ q ++ "`)")) ++ ")" ∧
    parse_pingap_config
      { id := "n2", name := "/n2"
        labels := [("pingap.enable", "true")]
        ip_address := some "1.2.3.4", ports := [80], networks := [] } =
      .error ("Container /n2 has pingap.enable=true but no routing rule. "
        ++ "Provide one of: pingap.http.rule, pingap.http.host, or pingap.http.paths") :=
  ⟨C6_rule_composition.1
      { id := "w1", name := "/w"
        labels := [("pingap.enable", "true"),
                   ("pingap.http.host", "example.com"),
                   ("pingap.http.paths", "/a, /b")]
        ip_address := some "1.2.3.4", ports := [80], networks := [] }
      { name := "w", upstreams := ["1.2.3.4:80"]
        location := { rule := "Host(`example.com`) && (PathPrefix(`/a`) || PathPrefix(`/b`))"
                      priority := none, middlewares := none, tls := none }
        upstream_config := none, health_check := none
        middleware_config := none, tls_config := none }
      "example.com" "/a, /b" (by decide) (by decide) (by decide) (by decide),
    by
      have := C6_rule_composition.2.2.2
        { id := "n2", name := "/n2"
          labels := [("pingap.enable", "true")]
          ip_address := some "1.2.3.4", ports := [80], networks := [] }
        "1.2.3.4" 80 (by decide) (by decide) (by decide) (by decide)
        (by decide) (by decide)
      exact this.trans (by decide)⟩

/-- C4 counterexample: a combined rule that merely starts with `Host(` is
uploaded with a non-empty (mangled) host field, not an empty one — the
claimed "rules built from other combinators upload with both fields empty"
is false on the code, which matches by prefix only. -/
theorem C4_counterexample :
    (buildLocationPayload
      { name := "svc", upstreams := ["1.2.3.4:80"]
        location := { rule := "Host(`a`) && (PathPrefix(`/b`))"
                      priority := none, middlewares := none, tls := none }
        upstream_config := none, health_check := none
        middleware_config := none, tls_config := none }).host =
      "`a`) && (PathPrefix(`/b`" ∧
    ¬ (buildLocationPayload
      { name := "svc", upstreams := ["1.2.3.4:80"]
        location := { rule := "Host(`a`) && (PathPrefix(`/b`))"
                      priority := none, middlewares := none, tls := none }
        upstream_config := none, health_check := none
        middleware_config := none, tls_config := none }).host = "" := by
  constructor
  · decide
  · decide

/-- C4 (amended): the two canonical single-predicate forms fill the
discrete host/path fields (backticks retained); a rule starting with
neither `Host(` nor `PathPrefix(` uploads with both fields empty; but
recognition is by prefix, so any rule starting with `Host(` fills the host
field with the rule text after stripping leading `Host(` occurrences and
trailing `)` characters (and leaves path empty); the upload itself succeeds
for any rule when the remote answers 2xx. -/
theorem C4_rule_extraction :
    (∀ cfg h, cfg.location.rule = "Host(`" ++ h ++ "`)" →
      buildLocationPayload cfg =
        { upstream := cfg.name, host := "`" ++ h ++ "`", path := "" }) ∧
    (∀ cfg p, cfg.location.rule = "PathPrefix(`" ++ p ++ "`)" →
      buildLocationPayload cfg =
        { upstream := cfg.name, host := "", path := "`" ++ p ++ "`" }) ∧
    (∀ cfg, startsWithL "Host(" cfg.location.rule = false →
      startsWithL "PathPrefix(" cfg.location.rule = false →
      buildLocationPayload cfg = { upstream := cfg.name, host := "", path := "" }) ∧
    (∀ cfg, startsWithL "Host(" cfg.location.rule = true →
      (buildLocationPayload cfg).host =
        trimEndMatchesChar ')' (trimStartMatchesStr "Host(" cfg.location.rule) ∧
      (buildLocationPayload cfg).path = "") ∧
    (∀ cfg upBody locBody,
      applyAttempt cfg 200 upBody 200 locBody = .ok (buildLocationPayload cfg)) := by
  refine ⟨?_, ?_, ?_, ?_, ?_⟩
  · intro cfg h hr
    unfold buildLocationPayload
    rw [hr, extract_host_canonical]
  · intro cfg p hr
    unfold buildLocationPayload
    rw [hr, extract_path_canonical]
  · intro cfg h1 h2
    unfold buildLocationPayload extractHostPath
    rw [h1, h2]
    simp
  · intro cfg h1
    unfold buildLocationPayload extractHostPath
    rw [h1]
    simp
  · intro cfg upBody locBody
    simp [applyAttempt, isSuccessStatus]

/-- Witness for C4 (amended) at concrete rules of each kind. -/
theorem C4_rule_extraction_witness :
    buildLocationPayload
      { name := "svc", upstreams := ["1.2.3.4:80"]
        location := { rule := "Host(`example.com`)"
                      priority := none, middlewares := none, tls := none }
        upstream_config := none, health_check := none
        middleware_config := none, tls_config := none } =
      { upstream := "svc", host := "`example.com`", path := "" } ∧
    buildLocationPayload
      { name := "svc2", upstreams := ["1.2.3.4:80"]
        location := { rule := "Path(`/x`)"
                      priority := none, middlewares := none, tls := none }
        upstream_config := none, health_check := none
        middleware_config := none, tls_config := none } =
      { upstream := "svc2", host := "", path := "" } :=
  ⟨C4_rule_extraction.1
      { name := "svc", upstreams := ["1.2.3.4:80"]
        location := { rule := "Host(`example.com`)"
                      priority := none, middlewares := none, tls := none }
        upstream_config := none, health_check := none
        middleware_config := none, tls_config := none }
      "example.com" (by decide),
    C4_rule_extraction.2.2.1
      { name := "svc2", upstreams := ["1.2.3.4:80"]
        location := { rule := "Path(`/x`)"
                      priority := none, middlewares := none, tls := none }
        upstream_config := none, health_check := none
        middleware_config := none, tls_config := none }
      (by decide) (by decide)⟩

/-- C10: the extracted discrete fields keep the backtick delimiters: a rule
exactly `Host(\x60X\x60)` yields host `\x60X\x60` (backticks included), and a
rule exactly `PathPrefix(\x60P\x60)` yields path `\x60P\x60`, never the bare
inner value. -/
theorem C10_backticks_retained :
    (∀ cfg x, cfg.location.rule = "Host(`" ++ x ++ "`)" →
      (buildLocationPayload cfg).host = "`" ++ x ++ "`") ∧
    (∀ cfg p, cfg.location.rule = "PathPrefix(`" ++ p ++ "`)" →
      (buildLocationPayload cfg).path = "`" ++ p ++ "`") := by
  constructor
  · intro cfg x hr
    unfold buildLocationPayload
    rw [hr, extract_host_canonical]
  · intro cfg p hr
    unfold buildLocationPayload
    rw [hr, extract_path_canonical]

/-- Witness for C10 at the rules `Host(\x60example.com\x60)` and
`PathPrefix(\x60/api\x60)`. -/
theorem C10_backticks_retained_witness :
    (buildLocationPayload
      { name := "svc", upstreams := ["1.2.3.4:80"]
        location := { rule := "Host(`example.com`)"
                      priority := none, middlewares := none, tls := none }
        upstream_config := none, health_check := none
        middleware_config := none, tls_config := none }).host = "`example.com`" ∧
    (buildLocationPayload
      { name := "svc", upstreams := ["1.2.3.4:80"]
        location := { rule := "PathPrefix(`/api`)"
                      priority := none, middlewares := none, tls := none }
        upstream_config := none, health_check := none
        middleware_config := none, tls_config := none }).path = "`/api`" :=
  ⟨C10_backticks_retained.1
      { name := "svc", upstreams := ["1.2.3.4:80"]
        location := { rule := "Host(`example.com`)"
                      priority := none, middlewares := none, tls := none }
        upstream_config := none, health_check := none
        middleware_config := none, tls_config := none }
      "example.com" (by decide),
    C10_backticks_retained.2
      { name := "svc", upstreams := ["1.2.3.4:80"]
        location := { rule := "PathPrefix(`/api`)"
                      priority := none, middlewares := none, tls := none }
        upstream_config := none, health_check := none
        middleware_config := none, tls_config := none }
      "/api" (by decide)⟩
